import Mathlib

/-! Verification development for the legal RAG assistant: the chat frontend
submission handler embedded from frontend/app/page.tsx, and the hybrid
retrieval / routing / orchestration core modelled from the specification
(its Python sources are not part of the available source tree). -/

namespace RagJuridico

/-! ### Frontend chat state, embedded from frontend/app/page.tsx -/

/-- Shape of one chat message, from the Message interface in page.tsx. -/
structure Message where
  text : String
  isUser : Bool
deriving DecidableEq, Repr

/-- React state of the Home component: the messages list, the input field,
and the isLoading flag. -/
structure ChatState where
  messages : List Message
  input : String
  isLoading : Bool
deriving DecidableEq, Repr

/-- Outcome of the fetch inside handleSubmit. success means response.ok held
and the JSON body parsed, carrying its final_answer field; failure covers a
network error, a non-ok status, or an unparseable body, all of which reach
the catch block of page.tsx. -/
inductive FetchOutcome where
  | success (final_answer : String)
  | failure
deriving DecidableEq, Repr

/-- HTTP request issued by handleSubmit, with the JSON body recorded as its
list of key-value pairs, in the order JSON.stringify serialises them. -/
structure ApiRequest where
  url : String
  method : String
  bodyFields : List (String × String)
deriving DecidableEq, Repr

/-- Fixed error text appended when the fetch fails, from the catch block of
page.tsx. -/
def errorText : String :=
  "Desculpe, ocorreu um erro ao conectar com o assistente. Tente novamente."

/-- Text of the non-user message appended after the fetch: the response's
final_answer on success, the fixed error message otherwise. -/
def replyText : FetchOutcome → String
  | .success fa => fa
  | .failure => errorText

/-- Embedding of the JavaScript emptiness test on input.trim() in the guard
of handleSubmit: the trimmed string is empty exactly when every character of
the string is whitespace, the form used here because it evaluates by
structural recursion. -/
def trimmedEmpty (s : String) : Bool :=
  s.data.all Char.isWhitespace

/-- Embedding of handleSubmit from page.tsx. The guard returns early when the
trimmed input is empty or a request is in flight. Otherwise the user message
is appended, the input cleared, isLoading raised, a POST to /query with body
query = input is issued, the reply (final_answer or the fixed error text) is
appended as a non-user message, and isLoading is lowered in the finally
block. The result is the post-run state together with the request issued,
none when the guard returned early. -/
def handleSubmit (s : ChatState) (outcome : FetchOutcome) : ChatState × Option ApiRequest :=
  if trimmedEmpty s.input || s.isLoading then (s, none)
  else
    let userMessage : Message := { text := s.input, isUser := true }
    let req : ApiRequest :=
      { url := "http://127.0.0.1:8000/query", method := "POST",
        bodyFields := [("query", s.input)] }
    ({ messages :=
         s.messages ++ [userMessage, { text := replyText outcome, isUser := false }],
       input := "", isLoading := false }, some req)

/-! ### Hybrid retrieval: reciprocal rank fusion -/

/-- Modelled from the spec: a RetrievalCandidate carries a chunk identifier
and the fused score (specialized_retrievers.py is not in the source tree).
Chunk identifiers are naturals; the optional per-source ranks are recovered
from the source lists when needed. -/
structure RetrievalCandidate where
  chunk_id : Nat
  fused_score : ℚ
deriving DecidableEq, Repr

/-- Modelled from the spec: the 1-based rank of a chunk in one source
ranking, none when the chunk is absent from that list. -/
def rank1 (l : List Nat) (c : Nat) : Option Nat :=
  if c ∈ l then some (l.indexOf c + 1) else none

/-- Modelled from the spec: the contribution of one source list to a chunk's
fused score, 1 / (k + r) at 1-based rank r, and 0 when absent. -/
def contribution (k : ℚ) (l : List Nat) (c : Nat) : ℚ :=
  match rank1 l c with
  | some r => 1 / (k + r)
  | none => 0

/-- Modelled from the spec: the fused score is the sum of the contributions
from the two source lists. -/
def fusedScore (k : ℚ) (l1 l2 : List Nat) (c : Nat) : ℚ :=
  contribution k l1 c + contribution k l2 c

/-- Modelled from the spec: the best (lowest) 1-based rank of a chunk across
the two source lists; 0 for a chunk in neither, a case fusion never ranks. -/
def bestRank (l1 l2 : List Nat) (c : Nat) : Nat :=
  match rank1 l1 c, rank1 l2 c with
  | some r1, some r2 => min r1 r2
  | some r1, none => r1
  | none, some r2 => r2
  | none, none => 0

/-- Modelled from the spec: the fused output ordering: descending fused
score, ties broken by best rank, then by chunk id for determinism. -/
def rrfBefore (k : ℚ) (l1 l2 : List Nat) (a b : Nat) : Prop :=
  fusedScore k l1 l2 b < fusedScore k l1 l2 a ∨
    (fusedScore k l1 l2 a = fusedScore k l1 l2 b ∧
      (bestRank l1 l2 a < bestRank l1 l2 b ∨
        (bestRank l1 l2 a = bestRank l1 l2 b ∧ a ≤ b)))

instance (k : ℚ) (l1 l2 : List Nat) : DecidableRel (rrfBefore k l1 l2) := fun a b => by
  unfold rrfBefore
  infer_instance

instance (k : ℚ) (l1 l2 : List Nat) : IsTotal Nat (rrfBefore k l1 l2) :=
  ⟨fun a b => by
    unfold rrfBefore
    rcases lt_trichotomy (fusedScore k l1 l2 a) (fusedScore k l1 l2 b) with h | h | h
    · exact Or.inr (Or.inl h)
    · rcases lt_trichotomy (bestRank l1 l2 a) (bestRank l1 l2 b) with h2 | h2 | h2
      · exact Or.inl (Or.inr ⟨h, Or.inl h2⟩)
      · rcases le_total a b with h3 | h3
        · exact Or.inl (Or.inr ⟨h, Or.inr ⟨h2, h3⟩⟩)
        · exact Or.inr (Or.inr ⟨h.symm, Or.inr ⟨h2.symm, h3⟩⟩)
      · exact Or.inr (Or.inr ⟨h.symm, Or.inl h2⟩)
    · exact Or.inl (Or.inl h)⟩

instance (k : ℚ) (l1 l2 : List Nat) : IsTrans Nat (rrfBefore k l1 l2) :=
  ⟨fun a b c hab hbc => by
    unfold rrfBefore at hab hbc ⊢
    rcases hab with h1 | ⟨e1, h1⟩
    · rcases hbc with h2 | ⟨e2, h2⟩
      · exact Or.inl (h2.trans h1)
      · exact Or.inl (lt_of_le_of_lt (le_of_eq e2.symm) h1)
    · rcases hbc with h2 | ⟨e2, h2⟩
      · exact Or.inl (lt_of_lt_of_le h2 (le_of_eq e1.symm))
      · refine Or.inr ⟨e1.trans e2, ?_⟩
        rcases h1 with g1 | ⟨f1, g1⟩
        · rcases h2 with g2 | ⟨f2, g2⟩
          · exact Or.inl (g1.trans g2)
          · exact Or.inl (lt_of_lt_of_le g1 (le_of_eq f2))
        · rcases h2 with g2 | ⟨f2, g2⟩
          · exact Or.inl (lt_of_le_of_lt (le_of_eq f1) g2)
          · exact Or.inr ⟨f1.trans f2, g1.trans g2⟩⟩

/-- Modelled from the spec: reciprocal rank fusion of two source rankings
with smoothing constant k. The candidate pool is every chunk appearing in
either list; it is ordered by descending fused score with the deterministic
tie-breaks, and each output candidate carries its fused score. -/
def rrfFuse (k : ℚ) (l1 l2 : List Nat) : List RetrievalCandidate :=
  (List.insertionSort (rrfBefore k l1 l2) (l1 ++ l2).dedup).map
    (fun c => { chunk_id := c, fused_score := fusedScore k l1 l2 c })

/-! ### Cross-encoder reranker -/

/-- Modelled from the spec: a RerankedCandidate pairs a chunk id with its
cross-encoder relevance score, independent of the fusion scores. -/
structure RerankedCandidate where
  chunk_id : Nat
  relevance_score : ℚ
deriving DecidableEq, Repr

/-- Modelled from the spec: reranker ordering over fused candidates tagged
with their original fused rank: descending cross-encoder score, ties broken
by the original fused rank. The argument s scores a chunk id. -/
def rerankBefore (s : Nat → ℚ) (a b : Nat × RetrievalCandidate) : Prop :=
  s b.2.chunk_id < s a.2.chunk_id ∨ (s a.2.chunk_id = s b.2.chunk_id ∧ a.1 ≤ b.1)

instance (s : Nat → ℚ) : DecidableRel (rerankBefore s) := fun a b => by
  unfold rerankBefore
  infer_instance

/-- Modelled from the spec: the reranker. It scores each candidate's chunk
text against the query through the external pairwise relevance capability
(score applied to the query and the chunk's text, resolved by textOf), sorts
by that new score with ties broken by original fused rank, and keeps the top
keep results; a candidate list shorter than keep is returned whole. -/
def rerank (score : String → String → ℚ) (textOf : Nat → String) (q : String)
    (candidates : List RetrievalCandidate) (keep : Nat) : List RerankedCandidate :=
  ((List.insertionSort (rerankBefore (fun c => score q (textOf c)))
      candidates.enum).take keep).map
    (fun p => { chunk_id := p.2.chunk_id, relevance_score := score q (textOf p.2.chunk_id) })

/-! ### Router agent -/

/-- Modelled from the spec: the closed set of legal domains, matching the
per-domain collections named in the project report. -/
inductive Domain where
  | constitutional
  | consumer
  | human_rights
  | fiscal
deriving DecidableEq, Repr

/-- Modelled from the spec: a RoutingDecision is a domain set together with
the out-of-context flag. -/
structure RoutingDecision where
  domains : List Domain
  is_out_of_context : Bool
deriving DecidableEq, Repr

/-- Modelled from the spec: the raw result of the language-model
classification call, constrained to the known domains plus the
out_of_context sentinel; unparseable output and call failure are recorded as
their own cases. -/
inductive ClassifyOutcome where
  | parsed (ds : List Domain) (sentinel : Bool)
  | unparseable
  | callFailed
deriving DecidableEq, Repr

/-- Modelled from the spec: the router's classify. A failed call or an
unparseable result defaults to out-of-context with an empty domain set; the
out_of_context sentinel and an empty parsed set do the same; otherwise the
parsed (possibly multi-domain) set is returned with the flag lowered. -/
def classify (r : ClassifyOutcome) : RoutingDecision :=
  match r with
  | .callFailed => { domains := [], is_out_of_context := true }
  | .unparseable => { domains := [], is_out_of_context := true }
  | .parsed _ true => { domains := [], is_out_of_context := true }
  | .parsed [] false => { domains := [], is_out_of_context := true }
  | .parsed ds false => { domains := ds, is_out_of_context := false }

/-! ### Orchestrator -/

/-- Modelled from the spec: an AgentAnswer from one domain agent, with its
source chunk ids and advisory confidence. -/
structure AgentAnswer where
  domain : Domain
  text : String
  sources : List Nat
  confidence : ℚ
deriving DecidableEq, Repr

/-- Modelled from the spec: what one dispatched domain agent produced: an
answer, an insufficient-grounding signal, or a retrieval-unavailable
failure. -/
inductive AgentOutcome where
  | answered (a : AgentAnswer)
  | insufficientGrounding
  | retrievalUnavailable
deriving DecidableEq, Repr

/-- Modelled from the spec: one conversation turn, appended per successful
handle call. -/
structure ConversationTurn where
  user_text : String
  rewritten_text : String
  final_answer : String
deriving DecidableEq, Repr

/-- Modelled from the spec: the per-session conversation state, an
append-only turn history owned by the orchestrator. -/
structure Session where
  history : List ConversationTurn
deriving DecidableEq, Repr

/-- Modelled from the spec: the terminal FinalAnswer artifact. -/
structure FinalAnswer where
  text : String
  contributing_domains : List Domain
  sources : List Nat
deriving DecidableEq, Repr

/-- Modelled from the spec: the fatal condition when all dispatched domains
failed or were ungrounded. -/
inductive HandleError where
  | noAgentAvailable
deriving DecidableEq, Repr

/-- Modelled from the spec: the external calls handle issues toward domain
indices: retrieval calls and domain-directed generation calls, per domain.
The rewrite and classification calls are not domain-directed and are not
recorded here. -/
structure Trace where
  retrievalDomains : List Domain
  generationDomains : List Domain
deriving DecidableEq, Repr

/-- Modelled from the spec: the fixed cordial text returned on the
out-of-context path. -/
def cordialText : String :=
  "Desculpe, sua pergunta está fora do escopo jurídico deste assistente."

/-- Modelled from the spec: the fixed cordial FinalAnswer, with empty
sources and no contributing domains. -/
def cordialAnswer : FinalAnswer :=
  { text := cordialText, contributing_domains := [], sources := [] }

/-- Modelled from the spec: the confidence floor below which a domain's
answer is omitted from a merge. -/
def confidenceFloor : ℚ := 1 / 2

/-- Modelled from the spec: the oracle fixing the results of the external
calls one handle invocation may issue: the rewrite call (none when it
failed), the classification call, and each domain agent's outcome keyed by
domain (a domain absent from the list behaves as retrieval-unavailable). -/
structure Oracle where
  rewriteResult : Option String
  classification : ClassifyOutcome
  agentOutcomes : List (Domain × AgentOutcome)
deriving DecidableEq, Repr

/-- Modelled from the spec: the outcome recorded for one dispatched domain. -/
def lookupOutcome (l : List (Domain × AgentOutcome)) (d : Domain) : AgentOutcome :=
  match l.find? (fun p => decide (p.1 = d)) with
  | some p => p.2
  | none => .retrievalUnavailable

/-- Modelled from the spec: the standalone query routing acts on: the raw
user text when the session has no prior turns, otherwise the rewrite call's
result, falling back to the raw text when the rewrite failed. -/
def rewrittenQuery (user_text : String) (s : Session) (o : Oracle) : String :=
  if s.history.isEmpty then user_text
  else
    match o.rewriteResult with
    | some r => r
    | none => user_text

/-- Modelled from the spec: merge of the contributing AgentAnswers: a single
contributor is returned unwrapped; several are concatenated each under its
own domain heading, with sources concatenated in domain order. -/
def mergeAnswers (answers : List AgentAnswer) : FinalAnswer :=
  match answers with
  | [a] => { text := a.text, contributing_domains := [a.domain], sources := a.sources }
  | _ =>
    { text := String.intercalate "\n\n" (answers.map (fun a => a.text)),
      contributing_domains := answers.map (fun a => a.domain),
      sources := answers.foldr (fun a acc => a.sources ++ acc) [] }

/-- Modelled from the spec: the answers that contribute to the merge: those
whose agent answered with confidence at or above the floor. -/
def contributingAnswers (o : Oracle) (dispatched : List Domain) : List AgentAnswer :=
  dispatched.filterMap (fun d =>
    match lookupOutcome o.agentOutcomes d with
    | .answered a => if confidenceFloor ≤ a.confidence then some a else none
    | _ => none)

/-- Modelled from the spec: the orchestrator's handle for one query, with
the external calls fixed by the oracle. It rewrites the query when history
is non-empty, classifies it, short-circuits to the cordial answer when out
of context (issuing no retrieval and no domain-directed generation),
otherwise dispatches the classified domains, merges the contributing
answers, and fails with NoAgentAvailable when none contributed. The turn is
appended to the session only after a FinalAnswer is constructed, so a failed
call leaves the history unchanged. The result carries the answer or error,
the post-call session, and the trace of domain-directed external calls. -/
def handle (user_text : String) (s : Session) (o : Oracle) :
    Except HandleError FinalAnswer × Session × Trace :=
  let rewritten := rewrittenQuery user_text s o
  let decision := classify o.classification
  if decision.is_out_of_context then
    let turn : ConversationTurn :=
      { user_text := user_text, rewritten_text := rewritten,
        final_answer := cordialAnswer.text }
    (.ok cordialAnswer, { history := s.history ++ [turn] },
      { retrievalDomains := [], generationDomains := [] })
  else
    let dispatched := decision.domains
    let answers := contributingAnswers o dispatched
    let trace : Trace :=
      { retrievalDomains := dispatched,
        generationDomains := (answers.map (fun a => a.domain)) }
    match answers with
    | [] => (.error .noAgentAvailable, s, trace)
    | _ =>
      let fa := mergeAnswers answers
      let turn : ConversationTurn :=
        { user_text := user_text, rewritten_text := rewritten, final_answer := fa.text }
      (.ok fa, { history := s.history ++ [turn] }, trace)

/-- Modelled from the spec: whether an Except result is a success. -/
def isOkB : Except HandleError FinalAnswer → Bool
  | .ok _ => true
  | .error _ => false

/-- Modelled from the spec: the text of a successful result, used to relate
the appended turn to the constructed FinalAnswer. -/
def okText : Except HandleError FinalAnswer → String
  | .ok fa => fa.text
  | .error _ => ""

/-- Modelled from the spec: a sequence of handle calls on one session, each
call's externals fixed by its own oracle, run in order. -/
def runAll : List (String × Oracle) → Session → Session
  | [], s => s
  | (u, o) :: rest, s => runAll rest (handle u s o).2.1

/-- Modelled from the spec: every call in the sequence succeeds at the
session state it actually encounters. -/
def allOk : List (String × Oracle) → Session → Bool
  | [], _ => true
  | (u, o) :: rest, s =>
    if isOkB (handle u s o).1 then allOk rest (handle u s o).2.1 else false


/-- Modelled from the spec: an oracle whose classification call failed, used
as a concrete out-of-context run. -/
def oracleFailedCall : Oracle :=
  { rewriteResult := none, classification := .callFailed, agentOutcomes := [] }

/-! ### Theorems -/

/-- Stepping lemma for handle: a successful call appends exactly one turn,
carrying the raw user text, the rewritten query, and the text of the
constructed FinalAnswer; a failed call returns the session unchanged. -/
theorem handle_step (u : String) (σ : Session) (o : Oracle) :
    (isOkB (handle u σ o).1 = true ∧
      (handle u σ o).2.1.history
        = σ.history ++ [⟨u, rewrittenQuery u σ o, okText (handle u σ o).1⟩]) ∨
    (isOkB (handle u σ o).1 = false ∧ (handle u σ o).2.1 = σ) := by
  by_cases h : (classify o.classification).is_out_of_context = true
  · left
    constructor <;> simp [handle, isOkB, okText, h]
  · rcases ha : contributingAnswers o (classify o.classification).domains with _ | ⟨a, rest⟩
    · right
      constructor <;> simp [handle, isOkB, h, ha]
    · left
      constructor <;> simp [handle, isOkB, okText, h, ha]

/-- C7: after N successful handle calls on one session the conversation
history holds exactly the N turns in call order (on top of whatever history
the session started with), and for any single call the session either
succeeded and gained exactly one turn recording the constructed answer, or
failed and was left unchanged. -/
theorem C7_history_monotonicity (calls : List (String × Oracle)) (s : Session)
    (hok : allOk calls s = true) :
    (runAll calls s).history.map ConversationTurn.user_text
      = s.history.map ConversationTurn.user_text ++ calls.map Prod.fst ∧
    ∀ (u : String) (σ : Session) (o : Oracle),
      (isOkB (handle u σ o).1 = true ∧
        (handle u σ o).2.1.history
          = σ.history ++ [⟨u, rewrittenQuery u σ o, okText (handle u σ o).1⟩]) ∨
      (isOkB (handle u σ o).1 = false ∧ (handle u σ o).2.1 = σ) := by
  refine ⟨?_, fun u σ o => handle_step u σ o⟩
  induction calls generalizing s with
  | nil => simp [runAll]
  | cons p rest ih =>
    obtain ⟨u, o⟩ := p
    rcases handle_step u s o with ⟨hOk, hHist⟩ | ⟨hErr, _⟩
    · have hok2 : allOk rest (handle u s o).2.1 = true := by
        simpa [allOk, hOk] using hok
      have h2 := ih (handle u s o).2.1 hok2
      calc (runAll ((u, o) :: rest) s).history.map ConversationTurn.user_text
          = (runAll rest (handle u s o).2.1).history.map ConversationTurn.user_text := by
            simp [runAll]
        _ = ((handle u s o).2.1).history.map ConversationTurn.user_text
              ++ rest.map Prod.fst := h2
        _ = s.history.map ConversationTurn.user_text
              ++ (u :: rest.map Prod.fst) := by
            rw [hHist]
            simp
        _ = s.history.map ConversationTurn.user_text
              ++ ((u, o) :: rest).map Prod.fst := by simp
    · exfalso
      simp [allOk, hErr] at hok

/-- C2: every candidate in the fused output carries as fused score the sum
over both source lists of 1 / (k + r) at its 1-based rank r there (with 0
from a list it is absent from), and the output is ordered descending by that
score, ties broken by the best (lowest) rank across either source list,
then by chunk id. -/
theorem C2_rrf_score_and_order (k : ℚ) (l1 l2 : List Nat) :
    (rrfFuse k l1 l2).Forall
      (fun cand => cand.fused_score
        = contribution k l1 cand.chunk_id + contribution k l2 cand.chunk_id) ∧
    (rrfFuse k l1 l2).Pairwise
      (fun a b =>
        b.fused_score < a.fused_score ∨
          (a.fused_score = b.fused_score ∧
            (bestRank l1 l2 a.chunk_id < bestRank l1 l2 b.chunk_id ∨
              (bestRank l1 l2 a.chunk_id = bestRank l1 l2 b.chunk_id ∧
                a.chunk_id ≤ b.chunk_id)))) := by
  constructor
  · rw [List.forall_iff_forall_mem]
    intro cand hm
    unfold rrfFuse at hm
    rw [List.mem_map] at hm
    obtain ⟨x, _, rfl⟩ := hm
    rfl
  · unfold rrfFuse
    have hs : List.Pairwise (rrfBefore k l1 l2)
        (List.insertionSort (rrfBefore k l1 l2) ((l1 ++ l2).dedup)) :=
      List.sorted_insertionSort (rrfBefore k l1 l2) ((l1 ++ l2).dedup)
    exact hs.map _ (fun a b hab => hab)

/-- C3: the fused output covers exactly the chunks appearing in at least one
of the two source rankings. -/
theorem C3_rrf_coverage (k : ℚ) (l1 l2 : List Nat) (c : Nat) :
    (∃ cand ∈ rrfFuse k l1 l2, cand.chunk_id = c) ↔ (c ∈ l1 ∨ c ∈ l2) := by
  unfold rrfFuse
  constructor
  · rintro ⟨cand, hm, hid⟩
    rw [List.mem_map] at hm
    obtain ⟨x, hx, rfl⟩ := hm
    rw [List.mem_insertionSort, List.mem_dedup, List.mem_append] at hx
    simpa using hid ▸ hx
  · intro h
    refine ⟨⟨c, fusedScore k l1 l2 c⟩, ?_, rfl⟩
    rw [List.mem_map]
    refine ⟨c, ?_, rfl⟩
    rw [List.mem_insertionSort, List.mem_dedup, List.mem_append]
    exact h

/-- C4: the reranker returns exactly min keep (number of candidates)
results, for every scoring capability, text resolver, query, candidate list
and keep. -/
theorem C4_rerank_bound (score : String → String → ℚ) (textOf : Nat → String)
    (q : String) (candidates : List RetrievalCandidate) (keep : Nat) :
    (rerank score textOf q candidates keep).length = min keep candidates.length := by
  unfold rerank
  rw [List.length_map, List.length_take]
  rw [(List.perm_insertionSort _ _).length_eq, List.enum_length]

/-- C5: when the classification call failed or its result was unparseable,
classify returns the out-of-context decision with an empty domain set. -/
theorem C5_router_failsafe :
    classify .callFailed = { domains := [], is_out_of_context := true } ∧
    classify .unparseable = { domains := [], is_out_of_context := true } :=
  ⟨rfl, rfl⟩

/-- C6: on a routing decision flagged out-of-context, handle issues no
retrieval call and no domain-directed generation call, and returns the fixed
cordial FinalAnswer, whose sources are empty and which contributes no
domains. -/
theorem C6_out_of_context_short_circuit (u : String) (s : Session) (o : Oracle)
    (h : (classify o.classification).is_out_of_context = true) :
    (handle u s o).2.2 = { retrievalDomains := [], generationDomains := [] } ∧
    (handle u s o).1 = .ok cordialAnswer ∧
    cordialAnswer.sources = [] ∧ cordialAnswer.contributing_domains = [] := by
  refine ⟨?_, ?_, rfl, rfl⟩ <;> simp [handle, h]

theorem C6_out_of_context_short_circuit_witness :
    (handle "tempo" { history := [] } oracleFailedCall).2.2
      = { retrievalDomains := [], generationDomains := [] } ∧
    (handle "tempo" { history := [] } oracleFailedCall).1 = .ok cordialAnswer ∧
    cordialAnswer.sources = [] ∧ cordialAnswer.contributing_domains = [] :=
  C6_out_of_context_short_circuit "tempo" { history := [] } oracleFailedCall rfl

theorem C7_history_monotonicity_witness :
    (runAll [("a", oracleFailedCall), ("b", oracleFailedCall)]
        { history := [] }).history.map ConversationTurn.user_text
      = ({ history := [] } : Session).history.map ConversationTurn.user_text
          ++ ([("a", oracleFailedCall), ("b", oracleFailedCall)].map Prod.fst) ∧
    ∀ (u : String) (σ : Session) (o : Oracle),
      (isOkB (handle u σ o).1 = true ∧
        (handle u σ o).2.1.history
          = σ.history ++ [⟨u, rewrittenQuery u σ o, okText (handle u σ o).1⟩]) ∨
      (isOkB (handle u σ o).1 = false ∧ (handle u σ o).2.1 = σ) :=
  C7_history_monotonicity [("a", oracleFailedCall), ("b", oracleFailedCall)]
    { history := [] } (by decide)

/-- C8: when the trimmed input is empty or a request is already in flight,
handleSubmit issues no network request and leaves the whole state, so in
particular the messages list, the input field and the loading flag,
unchanged. -/
theorem C8_guard_frame (s : ChatState) (o : FetchOutcome)
    (h : (trimmedEmpty s.input || s.isLoading) = true) :
    handleSubmit s o = (s, none) := by
  simp [handleSubmit, h]

theorem C8_guard_frame_witness :
    (trimmedEmpty "" || false) = true ∧
    handleSubmit { messages := [], input := "", isLoading := false } .failure
      = ({ messages := [], input := "", isLoading := false }, none) :=
  ⟨by decide, C8_guard_frame { messages := [], input := "", isLoading := false }
    .failure (by decide)⟩

/-- C9: every run of handleSubmit that passes the input guard ends with the
loading flag false, whether the fetch succeeded or reached the catch
block. -/
theorem C9_loading_reset (s : ChatState) (o : FetchOutcome)
    (h : (trimmedEmpty s.input || s.isLoading) = false) :
    ((handleSubmit s o).1).isLoading = false := by
  simp [handleSubmit, h]

theorem C9_loading_reset_witness :
    (trimmedEmpty "oi" || false) = false ∧
    ((handleSubmit { messages := [], input := "oi", isLoading := false } .failure).1).isLoading
      = false :=
  ⟨by decide, C9_loading_reset { messages := [], input := "oi", isLoading := false }
    .failure (by decide)⟩

/-- C10: a submission passing the guard appends exactly two messages, in
order the user message then a non-user reply, and the reply text is the
final_answer on success and the fixed error message on any failure; the
user message is kept on failure. -/
theorem C10_two_messages_appended (s : ChatState) (o : FetchOutcome)
    (h : (trimmedEmpty s.input || s.isLoading) = false) :
    (handleSubmit s o).1.messages
      = s.messages ++
        [{ text := s.input, isUser := true }, { text := replyText o, isUser := false }] ∧
    (∀ fa, replyText (.success fa) = fa) ∧ replyText .failure = errorText := by
  refine ⟨?_, fun fa => rfl, rfl⟩
  simp [handleSubmit, h]

theorem C10_two_messages_appended_witness :
    (handleSubmit { messages := [], input := "oi", isLoading := false } .failure).1.messages
      = ([] : List Message) ++
        [{ text := "oi", isUser := true }, { text := replyText .failure, isUser := false }] ∧
    (∀ fa, replyText (.success fa) = fa) ∧ replyText .failure = errorText :=
  C10_two_messages_appended { messages := [], input := "oi", isLoading := false }
    .failure (by decide)

/-- C1: counterexample to the claim as stated: at a concrete submission the
POST body of the issued request has exactly the single key query, so no
session_id field accompanies it. -/
theorem C1_counterexample :
    ((handleSubmit { messages := [], input := "olá", isLoading := false }
        (.success "resposta")).2.map (fun r => r.bodyFields.map Prod.fst)) = some ["query"] ∧
    "session_id" ∉ (["query"] : List String) :=
  ⟨rfl, by decide⟩

/-- C1 amended: every submission passing the guard issues exactly one POST
to the core's query endpoint whose body carries the query string alone, with
no session identifier, and the displayed reply on success is the response's
final_answer as a non-user message. -/
theorem C1_request_query_only (s : ChatState) (fa : String)
    (h : (trimmedEmpty s.input || s.isLoading) = false) :
    (handleSubmit s (.success fa)).2
      = some { url := "http://127.0.0.1:8000/query", method := "POST",
               bodyFields := [("query", s.input)] } ∧
    (handleSubmit s (.success fa)).1.messages
      = s.messages ++
        [{ text := s.input, isUser := true }, { text := fa, isUser := false }] := by
  constructor <;> simp [handleSubmit, replyText, h]

theorem C1_request_query_only_witness :
    (handleSubmit { messages := [], input := "oi", isLoading := false } (.success "r")).2
      = some { url := "http://127.0.0.1:8000/query", method := "POST",
               bodyFields := [("query", "oi")] } ∧
    (handleSubmit { messages := [], input := "oi", isLoading := false } (.success "r")).1.messages
      = ([] : List Message) ++
        [{ text := "oi", isUser := true }, { text := "r", isUser := false }] :=
  C1_request_query_only { messages := [], input := "oi", isLoading := false } "r" (by decide)

end RagJuridico
